import Mathlib

/-!
Shallow embedding of the Gmail-Aggregator Flask application (src/app.py).

External collaborators (the Gmail SDK calls made through `gmail_client` and
`googleapiclient`) are modelled as oracles: records of `Except`-valued fields,
one per remote call, so that a per-account fetch is a pure function of the
token path, the per-account limit and the oracle describing how each remote
call would behave.  Python exceptions become the `Except.error` branch; the
`try/except` blocks of `app.py` become a `match` on the `Except` result of the
translated body.  The token directory (the credential store) is a
`ServerState`: a flag for whether the `tokens` directory exists plus the list
of token file basenames, in the order `glob.glob` would return them.
-/

namespace GmailAggregator

/-- One Gmail message header, as found under payload.headers in a message
detail response: a name/value pair of strings. -/
structure Header where
  name : String
  value : String
deriving Repr, DecidableEq

/-- The payload object of a message detail response; its headers key may be
absent (the code reads it with .get and default element the empty list). -/
structure Payload where
  headers : Option (List Header)
deriving Repr, DecidableEq

/-- A message detail response as consumed by fetch_account_latest: the
payload key and the snippet key may each be absent. -/
structure MsgDetail where
  payload : Option Payload
  snippet : Option String
deriving Repr, DecidableEq

/-- The dict built for each successfully fetched message in latest mode:
keys from, subject, date, snippet. -/
structure LatestMsg where
  «from» : String
  subject : String
  date : String
  snippet : String
deriving Repr, DecidableEq

/-- One entry of the accounts list of an aggregate response.  The Python code
returns dicts with varying key sets; absent keys are `none` here.  On success
the dict has email, count, messages and possibly warning; on total failure it
has email, error and messages (the empty list).  `μ` is the message payload
type (opaque mail dicts in unread mode, `LatestMsg` in latest mode). -/
structure AccountResult (μ : Type) where
  email : String
  count : Option Nat := none
  messages : List μ
  warning : Option String := none
  error : Option String := none
deriving Repr, DecidableEq

/-- os.path.basename: the part of the path after the last slash.  Computed
by a left fold over the characters that restarts at each slash. -/
def basename (p : String) : String :=
  ⟨p.data.foldl (fun acc c => if c = '/' then [] else acc ++ [c]) []⟩

/-- Oracle for the remote calls made by fetch_account_unread, in call order:
build_service_from_token, get_account_email, fetch_unread (which receives
max_results).  Each field is the outcome the remote call would have. -/
structure UnreadEnv (μ : Type) where
  build_service_from_token : Except String Unit
  get_account_email : Except String String
  fetch_unread : Int → Except String (List μ)

/-- The try-block body of fetch_account_unread (src/app.py lines 58-62). -/
def fetch_account_unread_body {μ : Type} (max_per : Int) (env : UnreadEnv μ) :
    Except String (AccountResult μ) := do
  let _ ← env.build_service_from_token
  let email_addr ← env.get_account_email
  let mails ← env.fetch_unread max_per
  pure { email := email_addr, count := some mails.length, messages := mails }

/-- fetch_account_unread (src/app.py lines 57-64): the try/except wrapper
around the body; any exception becomes the error dict keyed by the token
file basename, with an empty messages list. -/
def fetch_account_unread {μ : Type} (token_path : String) (max_per : Int)
    (env : UnreadEnv μ) : AccountResult μ :=
  match fetch_account_unread_body max_per env with
  | .ok r => r
  | .error e => { email := basename token_path, error := some e, messages := [] }

/-- The response of users().messages().list(...): its messages key (a list of
message ids) may be absent; the code reads it with .get and default the
empty list. -/
structure ListResp where
  messages : Option (List String)
deriving Repr, DecidableEq

/-- Oracle for the remote calls made by fetch_account_latest:
build_service_from_token, get_account_email, the message list call (given
maxResults) and the per-message detail call (given the message id). -/
structure LatestEnv where
  build_service_from_token : Except String Unit
  get_account_email : Except String String
  list_messages : Int → Except String ListResp
  get_message : String → Except String MsgDetail

/-- The headers list read from a message detail:
msg_detail.get("payload", \x7b\x7d).get("headers", []). -/
def headersOf (d : MsgDetail) : List Header :=
  match d.payload with
  | none => []
  | some p => p.headers.getD []

/-- next((h["value"] for h in headers if h["name"] == n), ""): the value of
the first header with the given name, or the empty string. -/
def headerValue (headers : List Header) (n : String) : String :=
  match headers.find? (fun h => h.name = n) with
  | some h => h.value
  | none => ""

/-- The msg_data dict built from one message detail (src/app.py lines 84-90). -/
def projectMessage (d : MsgDetail) : LatestMsg :=
  { «from» := headerValue (headersOf d) "From"
    subject := headerValue (headersOf d) "Subject"
    date := headerValue (headersOf d) "Date"
    snippet := d.snippet.getD "" }

/-- The per-message loop of fetch_account_latest (src/app.py lines 81-95):
returns the list of successfully projected messages, in listing order, and
the failed_messages counter. -/
def processMessages (env : LatestEnv) : List String → List LatestMsg × Nat
  | [] => ([], 0)
  | id :: rest =>
    match env.get_message id with
    | .ok d =>
      let r := processMessages env rest
      (projectMessage d :: r.1, r.2)
    | .error _ =>
      let r := processMessages env rest
      (r.1, r.2 + 1)

/-- The warning string attached when failed_messages > 0. -/
def latest_warning (n : Nat) : String :=
  "Failed to load " ++ toString n ++ " messages due to API errors"

/-- The try-block body of fetch_account_latest (src/app.py lines 68-100). -/
def fetch_account_latest_body (max_per : Int) (env : LatestEnv) :
    Except String (AccountResult LatestMsg) := do
  let _ ← env.build_service_from_token
  let email_addr ← env.get_account_email
  let results ← env.list_messages max_per
  let r := processMessages env (results.messages.getD [])
  pure { email := email_addr, count := some r.1.length, messages := r.1,
         warning := if r.2 > 0 then some (latest_warning r.2) else none }

/-- fetch_account_latest (src/app.py lines 67-102): the try/except wrapper;
any exception escaping the body becomes the error dict keyed by the token
file basename, with an empty messages list. -/
def fetch_account_latest (token_path : String) (max_per : Int)
    (env : LatestEnv) : AccountResult LatestMsg :=
  match fetch_account_latest_body max_per env with
  | .ok r => r
  | .error e => { email := basename token_path, error := some e, messages := [] }

/-- Strip leading and trailing whitespace from a character list. -/
def stripChars (cs : List Char) : List Char :=
  ((cs.dropWhile Char.isWhitespace).reverse.dropWhile Char.isWhitespace).reverse

/-- The numeric value of a run of decimal digit characters. -/
def digitsToNat (cs : List Char) : Nat :=
  cs.foldl (fun a c => a * 10 + (c.toNat - 48)) 0

/-- A nonempty run of decimal digits, as required after the optional sign. -/
def isDigitRun (cs : List Char) : Bool :=
  !cs.isEmpty && cs.all Char.isDigit

/-- Python int() applied to a string: leading/trailing whitespace is
stripped, an optional single + or - sign is allowed, and the rest must be a
nonempty run of decimal digits; anything else raises ValueError (`none`). -/
def pyInt (s : String) : Option Int :=
  match stripChars s.data with
  | '-' :: rest => if isDigitRun rest then some (-(digitsToNat rest : Int)) else none
  | '+' :: rest => if isDigitRun rest then some (digitsToNat rest : Int) else none
  | cs => if isDigitRun cs then some (digitsToNat cs : Int) else none

/-- int(request.args.get("max", 7)) (src/app.py lines 190 and 210): an absent
max query parameter yields the int default 7; a present one is a string fed
to int(), which raises ValueError on non-numeric input. -/
def parse_max (maxArg : Option String) : Except String Int :=
  match maxArg with
  | none => .ok 7
  | some s =>
    match pyInt s with
    | some n => .ok n
    | none => .error ("ValueError: invalid literal for int with base 10: " ++ s)

/-- The credential store as the routes see it: whether the tokens directory
exists, and the basenames of the *.json token files inside it, in the order
glob.glob("tokens/*.json") returns them. -/
structure ServerState where
  tokensDirExists : Bool
  tokenFiles : List String
deriving Repr, DecidableEq

/-- if not os.path.exists("tokens"): os.makedirs("tokens") — a freshly
created tokens directory contains no token files. -/
def ensureTokensDir (st : ServerState) : ServerState :=
  if st.tokensDirExists then st else { tokensDirExists := true, tokenFiles := [] }

/-- glob.glob("tokens/*.json") on a state whose tokens directory exists:
each basename prefixed with the directory. -/
def globTokens (st : ServerState) : List String :=
  st.tokenFiles.map (fun n => "tokens/" ++ n)

/-- The informational message returned when no token files exist. -/
def NO_ACCOUNTS_MSG : String :=
  "No authenticated accounts found. Please add an account first."

/-- The JSON body of an aggregate response: the accounts list, plus the
message key when it is present (only in the zero-accounts response). -/
structure AggResponse (μ : Type) where
  accounts : List (AccountResult μ)
  message : Option String := none
deriving Repr, DecidableEq

/-- The /unread route (src/app.py lines 188-205).  The ThreadPoolExecutor
submits one fetch_account_unread task per token path and appends the
results in submission order, so the accounts list is the in-order map of
the per-account fetch over the token paths.  `envs` gives each token path
its remote-call oracle.  An uncaught exception (only the int() of the max
parameter can raise here) is the Except.error branch. -/
def unread {μ : Type} (maxArg : Option String) (st : ServerState)
    (envs : String → UnreadEnv μ) :
    Except String (AggResponse μ × ServerState) := do
  let max_per ← parse_max maxArg
  let st := ensureTokensDir st
  let token_paths := globTokens st
  if token_paths = [] then
    pure ({ accounts := [], message := some NO_ACCOUNTS_MSG }, st)
  else
    pure ({ accounts :=
              token_paths.map (fun tp => fetch_account_unread tp max_per (envs tp)) },
          st)

/-- The /latest route (src/app.py lines 208-225), identical to /unread but
fanning out fetch_account_latest. -/
def latest (maxArg : Option String) (st : ServerState)
    (envs : String → LatestEnv) :
    Except String (AggResponse LatestMsg × ServerState) := do
  let max_per ← parse_max maxArg
  let st := ensureTokensDir st
  let token_paths := globTokens st
  if token_paths = [] then
    pure ({ accounts := [], message := some NO_ACCOUNTS_MSG }, st)
  else
    pure ({ accounts :=
              token_paths.map (fun tp => fetch_account_latest tp max_per (envs tp)) },
          st)

/-- The outcome of the /delete_user route: the 400 body for a missing email,
the 404 body for an unknown account, or the 200 success message. -/
inductive DeleteResp where
  | badRequest
  | notFound
  | deleted (email : String)
deriving Repr, DecidableEq

/-- The /delete_user route (src/app.py lines 168-185).  `email` is
data.get("email"): `none` when the key is absent; Python also treats the
empty string as falsy, hence the second badRequest case.  The token file
tokens/{email}.json exists iff its basename is among the stored token
files; unlink removes exactly that file. -/
def delete_user (email : Option String) (st : ServerState) :
    DeleteResp × ServerState :=
  match email with
  | none => (.badRequest, st)
  | some e =>
    if e = "" then (.badRequest, st)
    else if (e ++ ".json") ∈ st.tokenFiles then
      (.deleted e, { st with tokenFiles := st.tokenFiles.erase (e ++ ".json") })
    else
      (.notFound, st)

/-- Whether the detail fetch for one listed message id raises (lands in the
inner except branch of the per-message loop). -/
def detailFails (env : LatestEnv) (id : String) : Bool :=
  match env.get_message id with
  | .ok _ => false
  | .error _ => true

/-- The successfully projected messages of a listing, in listing order: one
`projectMessage` per id whose detail fetch succeeds. -/
def okProjections (env : LatestEnv) (ids : List String) : List LatestMsg :=
  ids.filterMap (fun id =>
    match env.get_message id with
    | .ok d => some (projectMessage d)
    | .error _ => none)

/- Concrete fixtures used by the witness and counterexample theorems. -/

/-- A healthy unread oracle: two unread mails for alice. -/
def envU_ok : UnreadEnv String :=
  { build_service_from_token := .ok ()
    get_account_email := .ok "alice@gmail.com"
    fetch_unread := fun _ => .ok ["mail one", "mail two"] }

/-- An unread oracle whose credential is rejected at service-build time. -/
def envU_fail : UnreadEnv String :=
  { build_service_from_token := .error "invalid_grant: Token has been expired or revoked."
    get_account_email := .error "unreached"
    fetch_unread := fun _ => .error "unreached" }

/-- A second failing unread oracle with a different error message. -/
def envU_fail2 : UnreadEnv String :=
  { build_service_from_token := .error "HttpError 401 Unauthorized"
    get_account_email := .error "unreached"
    fetch_unread := fun _ => .error "unreached" }

/-- A healthy latest oracle: one listed message with full headers. -/
def envL_ok : LatestEnv :=
  { build_service_from_token := .ok ()
    get_account_email := .ok "alice@gmail.com"
    list_messages := fun _ => .ok { messages := some ["m1"] }
    get_message := fun _ => .ok
      { payload := some ⟨some [⟨"From", "bob@x.y"⟩, ⟨"Subject", "hi"⟩, ⟨"Date", "Mon, 1 Jan 2024"⟩]⟩
        snippet := some "hello there" } }

/-- A latest oracle where the account email resolves but the message list
call then raises: the setting of the C2 counterexample. -/
def envC2 : LatestEnv :=
  { build_service_from_token := .ok ()
    get_account_email := .ok "alice@gmail.com"
    list_messages := fun _ => .error "network down"
    get_message := fun _ => .error "unreached" }

/-- A latest oracle listing seven messages of which exactly two (ids m3 and
m6) fail their detail fetch: the 2-of-7 scenario of the spec. -/
def envC3 : LatestEnv :=
  { build_service_from_token := .ok ()
    get_account_email := .ok "alice@gmail.com"
    list_messages := fun _ => .ok
      { messages := some ["m1", "m2", "m3", "m4", "m5", "m6", "m7"] }
    get_message := fun id =>
      if id = "m3" ∨ id = "m6" then .error "HttpError 500"
      else .ok { payload := some ⟨some [⟨"From", "bob@x.y"⟩]⟩, snippet := some "snippet" } }

/-- A server state with two registered accounts. -/
def stA : ServerState :=
  { tokensDirExists := true
    tokenFiles := ["alice@gmail.com.json", "bob@gmail.com.json"] }

/-- A server state whose tokens directory exists but holds no token files. -/
def st0 : ServerState :=
  { tokensDirExists := true, tokenFiles := [] }

/-- Per-path unread oracles: bob fails, everyone else is healthy. -/
def envsU1 : String → UnreadEnv String :=
  fun tp => if tp = "tokens/bob@gmail.com.json" then envU_fail else envU_ok

/-- Same as `envsU1` except bob fails differently: differs only at bob. -/
def envsU2 : String → UnreadEnv String :=
  fun tp => if tp = "tokens/bob@gmail.com.json" then envU_fail2 else envU_ok

/-- Per-path latest oracles: bob fails, everyone else is healthy. -/
def envsL1 : String → LatestEnv :=
  fun tp => if tp = "tokens/bob@gmail.com.json" then envC2 else envL_ok

/-- Same as `envsL1` except bob fails at the detail stage instead. -/
def envsL2 : String → LatestEnv :=
  fun tp => if tp = "tokens/bob@gmail.com.json" then envC3 else envL_ok

/-- A server state where the tokens directory does not exist yet. -/
def stNoDir : ServerState :=
  { tokensDirExists := false, tokenFiles := [] }

/-- A message detail with all three headers and a snippet present. -/
def msgW : MsgDetail :=
  { payload := some ⟨some [⟨"From", "bob@x.y"⟩, ⟨"Subject", "hi"⟩, ⟨"Date", "Mon, 1 Jan 2024"⟩]⟩
    snippet := some "hello there" }

/-- A message detail with no payload and no snippet. -/
def msgEmpty : MsgDetail :=
  { payload := none, snippet := none }

/-- The concrete aggregate response of /unread over `stA` with `envsU1`:
alice succeeds with two mails, bob fails at service build. -/
def rUW : AggResponse String :=
  { accounts :=
      [{ email := "alice@gmail.com", count := some 2,
         messages := ["mail one", "mail two"] },
       { email := "bob@gmail.com.json",
         error := some "invalid_grant: Token has been expired or revoked.",
         messages := [] }] }

/-! Shared helper lemmas. -/

/-- fetch_account_unread either returns the success record built in the try
block, or the except-branch record keyed by the token file basename. -/
theorem fetch_account_unread_shape {μ : Type} (tp : String) (mp : Int) (env : UnreadEnv μ) :
    (∃ em mails, fetch_account_unread tp mp env =
        { email := em, count := some (List.length mails), messages := mails }) ∨
    (∃ e, fetch_account_unread tp mp env =
        { email := basename tp, error := some e, messages := [] }) := by
  unfold fetch_account_unread fetch_account_unread_body
  cases hb : env.build_service_from_token with
  | error e => right; exact ⟨e, by simp [hb, Except.bind, Bind.bind]⟩
  | ok u =>
    cases he : env.get_account_email with
    | error e => right; exact ⟨e, by simp [hb, he, Except.bind, Bind.bind]⟩
    | ok em =>
      cases hf : env.fetch_unread mp with
      | error e => right; exact ⟨e, by simp [hb, he, hf, Except.bind, Bind.bind]⟩
      | ok mails =>
        left
        exact ⟨em, mails, by simp [hb, he, hf, Except.bind, Bind.bind, pure, Except.pure]⟩

/-- The per-message loop returns the successful projections in order and
counts the failing detail fetches. -/
theorem processMessages_eq (env : LatestEnv) (ids : List String) :
    processMessages env ids = (okProjections env ids, ids.countP (detailFails env)) := by
  induction ids with
  | nil => simp [processMessages, okProjections]
  | cons id rest ih =>
    cases hg : env.get_message id with
    | ok d =>
      simp [processMessages, hg, ih, okProjections, List.countP_cons, detailFails,
        List.filterMap_cons]
    | error e =>
      simp [processMessages, hg, ih, okProjections, List.countP_cons, detailFails,
        List.filterMap_cons]

/-- fetch_account_latest on an account whose service build, email resolution
and list call all succeed: the success record, with the warning attached
exactly when some detail fetch failed. -/
theorem fetch_account_latest_ok (tp : String) (mp : Int) (env : LatestEnv)
    (em : String) (res : ListResp) (ids : List String)
    (hb : env.build_service_from_token = .ok ())
    (he : env.get_account_email = .ok em)
    (hl : env.list_messages mp = .ok res)
    (hm : res.messages = some ids) :
    fetch_account_latest tp mp env =
      { email := em,
        count := some (okProjections env ids).length,
        messages := okProjections env ids,
        warning := if ids.countP (detailFails env) > 0
                   then some (latest_warning (ids.countP (detailFails env)))
                   else none } := by
  unfold fetch_account_latest fetch_account_latest_body
  simp [hb, he, hl, hm, Except.bind, Bind.bind, processMessages_eq, pure, Except.pure]

/-- fetch_account_latest either succeeds with count equal to the number of
projected messages and no error, or returns the except-branch record keyed
by the token file basename. -/
theorem fetch_account_latest_shape (tp : String) (mp : Int) (env : LatestEnv) :
    ((fetch_account_latest tp mp env).error = none ∧
      (fetch_account_latest tp mp env).count =
        some (fetch_account_latest tp mp env).messages.length) ∨
    (∃ e, fetch_account_latest tp mp env =
        { email := basename tp, error := some e, messages := [] }) := by
  unfold fetch_account_latest fetch_account_latest_body
  cases hb : env.build_service_from_token with
  | error e => right; exact ⟨e, by simp [hb, Except.bind, Bind.bind]⟩
  | ok u =>
    cases he : env.get_account_email with
    | error e => right; exact ⟨e, by simp [hb, he, Except.bind, Bind.bind]⟩
    | ok em =>
      cases hl : env.list_messages mp with
      | error e => right; exact ⟨e, by simp [hb, he, hl, Except.bind, Bind.bind]⟩
      | ok res =>
        left
        simp [hb, he, hl, Except.bind, Bind.bind, pure, Except.pure]

/-- /unread with a parsable max and at least one token file: one
fetch_account_unread entry per token path, in glob order. -/
theorem unread_ok_of_ne {μ : Type} (maxArg : Option String) (st : ServerState)
    (envs : String → UnreadEnv μ) (n : Int)
    (hn : parse_max maxArg = .ok n) (hne : (ensureTokensDir st).tokenFiles ≠ []) :
    unread maxArg st envs = .ok
      ({ accounts := (globTokens (ensureTokensDir st)).map
          (fun tp => fetch_account_unread tp n (envs tp)) }, ensureTokensDir st) := by
  unfold unread
  rw [hn]
  simp only [Except.bind, Bind.bind, globTokens]
  rw [if_neg]
  · rfl
  · simp [hne]

/-- /latest with a parsable max and at least one token file: one
fetch_account_latest entry per token path, in glob order. -/
theorem latest_ok_of_ne (maxArg : Option String) (st : ServerState)
    (envs : String → LatestEnv) (n : Int)
    (hn : parse_max maxArg = .ok n) (hne : (ensureTokensDir st).tokenFiles ≠ []) :
    latest maxArg st envs = .ok
      ({ accounts := (globTokens (ensureTokensDir st)).map
          (fun tp => fetch_account_latest tp n (envs tp)) }, ensureTokensDir st) := by
  unfold latest
  rw [hn]
  simp only [Except.bind, Bind.bind, globTokens]
  rw [if_neg]
  · rfl
  · simp [hne]

/-- /unread with a parsable max and no token files: the informational
zero-accounts response. -/
theorem unread_ok_of_empty {μ : Type} (maxArg : Option String) (st : ServerState)
    (envs : String → UnreadEnv μ) (n : Int)
    (hn : parse_max maxArg = .ok n) (he : (ensureTokensDir st).tokenFiles = []) :
    unread maxArg st envs = .ok
      ({ accounts := [], message := some NO_ACCOUNTS_MSG }, ensureTokensDir st) := by
  unfold unread
  rw [hn]
  simp [Except.bind, Bind.bind, globTokens, he, pure, Except.pure]

/-- /latest with a parsable max and no token files: the informational
zero-accounts response. -/
theorem latest_ok_of_empty (maxArg : Option String) (st : ServerState)
    (envs : String → LatestEnv) (n : Int)
    (hn : parse_max maxArg = .ok n) (he : (ensureTokensDir st).tokenFiles = []) :
    latest maxArg st envs = .ok
      ({ accounts := [], message := some NO_ACCOUNTS_MSG }, ensureTokensDir st) := by
  unfold latest
  rw [hn]
  simp [Except.bind, Bind.bind, globTokens, he, pure, Except.pure]

/-- /unread when int() raises on the max parameter: the exception
propagates out of the route. -/
theorem unread_of_parse_error {μ : Type} (maxArg : Option String) (st : ServerState)
    (envs : String → UnreadEnv μ) (e : String)
    (he : parse_max maxArg = .error e) :
    unread maxArg st envs = .error e := by
  unfold unread
  rw [he]
  rfl

/-- /latest when int() raises on the max parameter: the exception
propagates out of the route. -/
theorem latest_of_parse_error (maxArg : Option String) (st : ServerState)
    (envs : String → LatestEnv) (e : String)
    (he : parse_max maxArg = .error e) :
    latest maxArg st envs = .error e := by
  unfold latest
  rw [he]
  rfl

/-- Creating the tokens directory is idempotent. -/
theorem ensure_ensure (st : ServerState) :
    ensureTokensDir (ensureTokensDir st) = ensureTokensDir st := by
  by_cases h : st.tokensDirExists = true <;> simp [ensureTokensDir, h]

/-- /unread reads the store only through `ensureTokensDir`. -/
theorem unread_ensure {μ : Type} (maxArg : Option String) (st : ServerState)
    (envs : String → UnreadEnv μ) :
    unread maxArg (ensureTokensDir st) envs = unread maxArg st envs := by
  unfold unread
  rw [ensure_ensure]

/-- /latest reads the store only through `ensureTokensDir`. -/
theorem latest_ensure (maxArg : Option String) (st : ServerState)
    (envs : String → LatestEnv) :
    latest maxArg (ensureTokensDir st) envs = latest maxArg st envs := by
  unfold latest
  rw [ensure_ensure]

/-- The state a successful /unread call leaves behind is the ensured input
state: the call never changes the set of token files. -/
theorem unread_state {μ : Type} (maxArg : Option String) (st : ServerState)
    (envs : String → UnreadEnv μ) (r : AggResponse μ) (st2 : ServerState)
    (h : unread maxArg st envs = .ok (r, st2)) : st2 = ensureTokensDir st := by
  cases hp : parse_max maxArg with
  | error e => rw [unread_of_parse_error maxArg st envs e hp] at h; exact absurd h (by simp)
  | ok n =>
    by_cases hemp : (ensureTokensDir st).tokenFiles = []
    · rw [unread_ok_of_empty maxArg st envs n hp hemp] at h
      simp only [Except.ok.injEq, Prod.mk.injEq] at h
      exact h.2.symm
    · rw [unread_ok_of_ne maxArg st envs n hp hemp] at h
      simp only [Except.ok.injEq, Prod.mk.injEq] at h
      exact h.2.symm

/-- The state a successful /latest call leaves behind is the ensured input
state: the call never changes the set of token files. -/
theorem latest_state (maxArg : Option String) (st : ServerState)
    (envs : String → LatestEnv) (r : AggResponse LatestMsg) (st2 : ServerState)
    (h : latest maxArg st envs = .ok (r, st2)) : st2 = ensureTokensDir st := by
  cases hp : parse_max maxArg with
  | error e => rw [latest_of_parse_error maxArg st envs e hp] at h; exact absurd h (by simp)
  | ok n =>
    by_cases hemp : (ensureTokensDir st).tokenFiles = []
    · rw [latest_ok_of_empty maxArg st envs n hp hemp] at h
      simp only [Except.ok.injEq, Prod.mk.injEq] at h
      exact h.2.symm
    · rw [latest_ok_of_ne maxArg st envs n hp hemp] at h
      simp only [Except.ok.injEq, Prod.mk.injEq] at h
      exact h.2.symm

/-- Unfolding of the first-match header lookup over a cons cell. -/
theorem headerValue_cons (h : Header) (t : List Header) (n : String) :
    headerValue (h :: t) n = if h.name = n then h.value else headerValue t n := by
  unfold headerValue
  simp only [List.find?]
  by_cases hn : h.name = n
  · simp [hn]
  · simp [hn]

/-- When some header with the given name is present and every such header
carries the value v, the lookup returns v. -/
theorem headerValue_of_present (hs : List Header) (n v : String)
    (hex : ∃ h ∈ hs, h.name = n) (huniq : ∀ h ∈ hs, h.name = n → h.value = v) :
    headerValue hs n = v := by
  induction hs with
  | nil => obtain ⟨h, hm, _⟩ := hex; exact absurd hm (List.not_mem_nil h)
  | cons a t ih =>
    rw [headerValue_cons]
    by_cases ha : a.name = n
    · rw [if_pos ha]
      exact huniq a (List.mem_cons_self a t) ha
    · rw [if_neg ha]
      obtain ⟨h, hm, hn⟩ := hex
      rcases List.mem_cons.mp hm with rfl | hmt
      · exact absurd hn ha
      · exact ih ⟨h, hmt, hn⟩ (fun h2 hm2 hn2 => huniq h2 (List.mem_cons_of_mem a hm2) hn2)

/-- When no header with the given name is present, the lookup returns the
empty-string default. -/
theorem headerValue_of_absent (hs : List Header) (n : String)
    (hab : ∀ h ∈ hs, h.name ≠ n) : headerValue hs n = "" := by
  have hnone : hs.find? (fun h => h.name = n) = none :=
    List.find?_eq_none.mpr (by intro h hm; simpa using hab h hm)
  unfold headerValue
  rw [hnone]

/-! Claim theorems. -/

/-- C1: for every non-empty set of registered token files at the start of an
aggregate call, in either mode, the returned response accounts list has
exactly one entry per registered account - its length equals the number of
token files enumerated at fetch-start - whatever each per-account oracle
does; no account is omitted. -/
theorem unread_latest_accounts_complete {μ : Type} (maxArg : Option String)
    (st : ServerState) (envU : String → UnreadEnv μ) (envL : String → LatestEnv)
    (n : Int) (hn : parse_max maxArg = .ok n) (hd : st.tokensDirExists = true)
    (hne : st.tokenFiles ≠ []) :
    (∃ r, unread maxArg st envU = .ok (r, st) ∧ r.message = none ∧
       r.accounts.length = st.tokenFiles.length) ∧
    (∃ r, latest maxArg st envL = .ok (r, st) ∧ r.message = none ∧
       r.accounts.length = st.tokenFiles.length) := by
  have hens : ensureTokensDir st = st := by simp [ensureTokensDir, hd]
  have hne2 : (ensureTokensDir st).tokenFiles ≠ [] := by rw [hens]; exact hne
  constructor
  · have hu := unread_ok_of_ne maxArg st envU n hn hne2
    rw [hens] at hu
    exact ⟨_, hu, rfl, by simp [globTokens]⟩
  · have hl := latest_ok_of_ne maxArg st envL n hn hne2
    rw [hens] at hl
    exact ⟨_, hl, rfl, by simp [globTokens]⟩

/-- Witness for C1: two registered accounts, one healthy and one failing,
still give exactly two account entries in both modes. -/
theorem unread_latest_accounts_complete_witness :
    (∃ r, unread none stA envsU1 = .ok (r, stA) ∧ r.message = none ∧
       r.accounts.length = stA.tokenFiles.length) ∧
    (∃ r, latest none stA envsL1 = .ok (r, stA) ∧ r.message = none ∧
       r.accounts.length = stA.tokenFiles.length) :=
  unread_latest_accounts_complete none stA envsU1 envsL1 7 rfl rfl (by decide)

/-- C3: in latest mode, when the list call succeeds and exactly n of the
listed detail fetches fail, the account result keeps only the successful
projections, count equals their number, and the warning is the string
"Failed to load n messages due to API errors" exactly when n is positive;
when n is zero there is no warning. -/
theorem latest_partial_failure_warning (tp : String) (mp : Int) (env : LatestEnv)
    (em : String) (res : ListResp) (ids : List String) (n : Nat)
    (hb : env.build_service_from_token = .ok ())
    (he : env.get_account_email = .ok em)
    (hl : env.list_messages mp = .ok res)
    (hm : res.messages = some ids)
    (hn : ids.countP (detailFails env) = n) :
    (fetch_account_latest tp mp env).error = none ∧
    (fetch_account_latest tp mp env).email = em ∧
    (fetch_account_latest tp mp env).messages = okProjections env ids ∧
    (fetch_account_latest tp mp env).count = some (okProjections env ids).length ∧
    (n = 0 → (fetch_account_latest tp mp env).warning = none) ∧
    (0 < n → (fetch_account_latest tp mp env).warning =
       some ("Failed to load " ++ toString n ++ " messages due to API errors")) := by
  rw [fetch_account_latest_ok tp mp env em res ids hb he hl hm]
  refine ⟨rfl, rfl, rfl, rfl, ?_, ?_⟩
  · intro h0
    simp only [hn, h0]
    rfl
  · intro hpos
    simp only [hn]
    rw [if_pos hpos]
    rfl

/-- Witness for C3: seven listed messages with two failing detail fetches
give count 5, five messages and the exact 2-message warning string. -/
theorem latest_partial_failure_warning_witness :
    (fetch_account_latest "tokens/alice@gmail.com.json" 7 envC3).count = some 5 ∧
    (fetch_account_latest "tokens/alice@gmail.com.json" 7 envC3).messages.length = 5 ∧
    (fetch_account_latest "tokens/alice@gmail.com.json" 7 envC3).warning =
      some "Failed to load 2 messages due to API errors" := by
  have h := latest_partial_failure_warning "tokens/alice@gmail.com.json" 7 envC3
    "alice@gmail.com" { messages := some ["m1", "m2", "m3", "m4", "m5", "m6", "m7"] }
    ["m1", "m2", "m3", "m4", "m5", "m6", "m7"] 2 rfl rfl rfl rfl (by decide)
  refine ⟨?_, ?_, ?_⟩
  · rw [h.2.2.2.1]
    decide
  · rw [h.2.2.1]
    decide
  · rw [h.2.2.2.2.2 (by decide)]
    decide

/-- C5: a per-account fetch that carries no error field reports a count
equal to the length of its messages list, in both modes. -/
theorem success_count_matches_messages {μ : Type} (tpU tpL : String)
    (mpU mpL : Int) (envU : UnreadEnv μ) (envL : LatestEnv) :
    ((fetch_account_unread tpU mpU envU).error = none →
      (fetch_account_unread tpU mpU envU).count =
        some (fetch_account_unread tpU mpU envU).messages.length) ∧
    ((fetch_account_latest tpL mpL envL).error = none →
      (fetch_account_latest tpL mpL envL).count =
        some (fetch_account_latest tpL mpL envL).messages.length) := by
  constructor
  · intro hne
    rcases fetch_account_unread_shape tpU mpU envU with ⟨em, mails, hr⟩ | ⟨e, hr⟩
    · rw [hr]
    · rw [hr] at hne
      exact absurd hne (by simp)
  · intro hne
    rcases fetch_account_latest_shape tpL mpL envL with ⟨_, hc⟩ | ⟨e, hr⟩
    · exact hc
    · rw [hr] at hne
      exact absurd hne (by simp)

/-- Witness for C5: healthy oracles in both modes give counts 2 and 1,
matching the message list lengths. -/
theorem success_count_matches_messages_witness :
    ((fetch_account_unread "tokens/alice@gmail.com.json" 7 envU_ok).count =
      some (fetch_account_unread "tokens/alice@gmail.com.json" 7 envU_ok).messages.length) ∧
    ((fetch_account_latest "tokens/alice@gmail.com.json" 7 envL_ok).count =
      some (fetch_account_latest "tokens/alice@gmail.com.json" 7 envL_ok).messages.length) :=
  ⟨(success_count_matches_messages "tokens/alice@gmail.com.json"
      "tokens/alice@gmail.com.json" 7 7 envU_ok envL_ok).1 rfl,
   (success_count_matches_messages "tokens/alice@gmail.com.json"
      "tokens/alice@gmail.com.json" 7 7 envU_ok envL_ok).2 rfl⟩

/-- C10: a per-account fetch that fails totally returns, in either mode,
exactly the record with the token file basename (the .json filename, not a
bare email) as its email, the error string, and an empty messages list. -/
theorem error_entry_shape {μ : Type} (tp : String) (mp : Int)
    (envU : UnreadEnv μ) (envL : LatestEnv) :
    (∀ e, (fetch_account_unread tp mp envU).error = some e →
       fetch_account_unread tp mp envU =
         { email := basename tp, error := some e, messages := [] }) ∧
    (∀ e, (fetch_account_latest tp mp envL).error = some e →
       fetch_account_latest tp mp envL =
         { email := basename tp, error := some e, messages := [] }) := by
  constructor
  · intro e h
    rcases fetch_account_unread_shape tp mp envU with ⟨em, mails, hr⟩ | ⟨e2, hr⟩
    · rw [hr] at h
      exact absurd h (by simp)
    · rw [hr] at h
      simp only [Option.some.injEq] at h
      rw [hr, h]
  · intro e h
    rcases fetch_account_latest_shape tp mp envL with ⟨hnone, _⟩ | ⟨e2, hr⟩
    · rw [hnone] at h
      exact absurd h (by simp)
    · rw [hr] at h
      simp only [Option.some.injEq] at h
      rw [hr, h]

/-- Witness for C10: a failing credential for bob yields the error entry
keyed by "bob@gmail.com.json" - the filename with its .json extension - with
an empty messages list, in both modes. -/
theorem error_entry_shape_witness :
    (fetch_account_unread "tokens/bob@gmail.com.json" 7 envU_fail =
      { email := "bob@gmail.com.json",
        error := some "invalid_grant: Token has been expired or revoked.",
        messages := ([] : List String) }) ∧
    (fetch_account_latest "tokens/bob@gmail.com.json" 7 envC2 =
      { email := "bob@gmail.com.json", error := some "network down",
        messages := [] }) := by
  have h := error_entry_shape "tokens/bob@gmail.com.json" 7 envU_fail envC2
  constructor
  · have h1 := h.1 "invalid_grant: Token has been expired or revoked." rfl
    rw [h1]
    decide
  · have h2 := h.2 "network down" rfl
    rw [h2]
    decide

/-- C2 counterexample: an account whose email resolves fine but whose
message list call then raises gets an error entry keyed by the token file
basename, not by the already-resolved email - the except branch of
fetch_account_latest uses os.path.basename(token_path) unconditionally. -/
theorem error_identifier_counterexample :
    envC2.get_account_email = Except.ok "alice@gmail.com" ∧
    (fetch_account_latest "tokens/alice@gmail.com.json" 7 envC2).error =
      some "network down" ∧
    (fetch_account_latest "tokens/alice@gmail.com.json" 7 envC2).email =
      "alice@gmail.com.json" ∧
    "alice@gmail.com.json" ≠ "alice@gmail.com" :=
  ⟨rfl, rfl, rfl, by decide⟩

/-- C2 amended: every exception inside a per-account fetch is caught there,
producing an error entry always identified by the stored-credential token
file basename (even when the email was already resolved); the aggregate
call still returns a well-formed response, and an account entry at a
position whose token path differs from the failing account p is unchanged
when only the oracle of p changes. -/
theorem failure_isolation_amended {μ : Type} (maxArg : Option String)
    (st : ServerState) (p : String) (envU₁ envU₂ : String → UnreadEnv μ)
    (envL₁ envL₂ : String → LatestEnv) (n : Int)
    (hn : parse_max maxArg = .ok n)
    (hU : ∀ tp, tp ≠ p → envU₁ tp = envU₂ tp)
    (hL : ∀ tp, tp ≠ p → envL₁ tp = envL₂ tp) :
    (∀ tp (env : UnreadEnv μ), (fetch_account_unread tp n env).error = none ∨
       ∃ e, fetch_account_unread tp n env =
         { email := basename tp, error := some e, messages := [] }) ∧
    (∀ tp (env : LatestEnv), (fetch_account_latest tp n env).error = none ∨
       ∃ e, fetch_account_latest tp n env =
         { email := basename tp, error := some e, messages := [] }) ∧
    (∃ rU stU, unread maxArg st envU₁ = .ok (rU, stU)) ∧
    (∃ rL stL, latest maxArg st envL₁ = .ok (rL, stL)) ∧
    (∀ rU₁ stU₁ rU₂ stU₂, unread maxArg st envU₁ = .ok (rU₁, stU₁) →
       unread maxArg st envU₂ = .ok (rU₂, stU₂) →
       ∀ i : Nat, (globTokens (ensureTokensDir st))[i]? ≠ some p →
         rU₁.accounts[i]? = rU₂.accounts[i]?) ∧
    (∀ rL₁ stL₁ rL₂ stL₂, latest maxArg st envL₁ = .ok (rL₁, stL₁) →
       latest maxArg st envL₂ = .ok (rL₂, stL₂) →
       ∀ i : Nat, (globTokens (ensureTokensDir st))[i]? ≠ some p →
         rL₁.accounts[i]? = rL₂.accounts[i]?) := by
  refine ⟨?_, ?_, ?_, ?_, ?_, ?_⟩
  · intro tp env
    rcases fetch_account_unread_shape tp n env with ⟨em, mails, hr⟩ | ⟨e, hr⟩
    · left
      rw [hr]
    · right
      exact ⟨e, hr⟩
  · intro tp env
    rcases fetch_account_latest_shape tp n env with ⟨hnone, _⟩ | ⟨e, hr⟩
    · left
      exact hnone
    · right
      exact ⟨e, hr⟩
  · by_cases hemp : (ensureTokensDir st).tokenFiles = []
    · exact ⟨_, _, unread_ok_of_empty maxArg st envU₁ n hn hemp⟩
    · exact ⟨_, _, unread_ok_of_ne maxArg st envU₁ n hn hemp⟩
  · by_cases hemp : (ensureTokensDir st).tokenFiles = []
    · exact ⟨_, _, latest_ok_of_empty maxArg st envL₁ n hn hemp⟩
    · exact ⟨_, _, latest_ok_of_ne maxArg st envL₁ n hn hemp⟩
  · intro rU₁ stU₁ rU₂ stU₂ h₁ h₂ i hi
    by_cases hemp : (ensureTokensDir st).tokenFiles = []
    · rw [unread_ok_of_empty maxArg st envU₁ n hn hemp] at h₁
      rw [unread_ok_of_empty maxArg st envU₂ n hn hemp] at h₂
      simp only [Except.ok.injEq, Prod.mk.injEq] at h₁ h₂
      rw [← h₁.1, ← h₂.1]
    · rw [unread_ok_of_ne maxArg st envU₁ n hn hemp] at h₁
      rw [unread_ok_of_ne maxArg st envU₂ n hn hemp] at h₂
      simp only [Except.ok.injEq, Prod.mk.injEq] at h₁ h₂
      rw [← h₁.1, ← h₂.1]
      simp only [List.getElem?_map]
      cases hpi : (globTokens (ensureTokensDir st))[i]? with
      | none => rfl
      | some tp =>
        rw [hpi] at hi
        have htp : tp ≠ p := by intro hc; exact hi (by rw [hc])
        simp only [Option.map_some']
        rw [hU tp htp]
  · intro rL₁ stL₁ rL₂ stL₂ h₁ h₂ i hi
    by_cases hemp : (ensureTokensDir st).tokenFiles = []
    · rw [latest_ok_of_empty maxArg st envL₁ n hn hemp] at h₁
      rw [latest_ok_of_empty maxArg st envL₂ n hn hemp] at h₂
      simp only [Except.ok.injEq, Prod.mk.injEq] at h₁ h₂
      rw [← h₁.1, ← h₂.1]
    · rw [latest_ok_of_ne maxArg st envL₁ n hn hemp] at h₁
      rw [latest_ok_of_ne maxArg st envL₂ n hn hemp] at h₂
      simp only [Except.ok.injEq, Prod.mk.injEq] at h₁ h₂
      rw [← h₁.1, ← h₂.1]
      simp only [List.getElem?_map]
      cases hpi : (globTokens (ensureTokensDir st))[i]? with
      | none => rfl
      | some tp =>
        rw [hpi] at hi
        have htp : tp ≠ p := by intro hc; exact hi (by rw [hc])
        simp only [Option.map_some']
        rw [hL tp htp]

/-- Witness for C2 amended: with bob failing and alice healthy, bob gets a
basename-keyed error entry and the aggregate still returns ok. -/
theorem failure_isolation_amended_witness :
    ((fetch_account_unread "tokens/bob@gmail.com.json" (7 : Int) envU_fail).error = none ∨
      ∃ e, fetch_account_unread "tokens/bob@gmail.com.json" (7 : Int) envU_fail =
        { email := basename "tokens/bob@gmail.com.json", error := some e,
          messages := ([] : List String) }) ∧
    (∃ rU stU, unread none stA envsU1 = Except.ok (rU, stU)) := by
  have h := failure_isolation_amended none stA "tokens/bob@gmail.com.json"
    envsU1 envsU2 envsL1 envsL2 7 rfl
    (by intro tp htp; simp only [envsU1, envsU2, if_neg htp])
    (by intro tp htp; simp only [envsL1, envsL2, if_neg htp])
  exact ⟨h.1 "tokens/bob@gmail.com.json" envU_fail, h.2.2.1⟩

/-- C4 counterexample: a non-numeric max parameter makes int() raise, so the
aggregate does not proceed with the default of 7 - the route propagates the
ValueError in both modes. -/
theorem nonnumeric_max_counterexample :
    unread (some "abc") stA envsU1 =
      Except.error "ValueError: invalid literal for int with base 10: abc" ∧
    latest (some "abc") stA envsL1 =
      Except.error "ValueError: invalid literal for int with base 10: abc" :=
  ⟨rfl, rfl⟩

/-- C4 amended: an omitted max parameter falls back to the default 7 and the
aggregate proceeds normally in both modes, but a non-numeric max parameter
makes int() raise a ValueError that propagates out of the route. -/
theorem max_param_amended {μ : Type} (st : ServerState)
    (envU : String → UnreadEnv μ) (envL : String → LatestEnv)
    (s : String) (hs : pyInt s = none) :
    parse_max none = Except.ok 7 ∧
    (∃ rU stU, unread none st envU = .ok (rU, stU)) ∧
    (∃ rL stL, latest none st envL = .ok (rL, stL)) ∧
    ((ensureTokensDir st).tokenFiles ≠ [] →
       unread none st envU = .ok
         ({ accounts := (globTokens (ensureTokensDir st)).map
             (fun tp => fetch_account_unread tp 7 (envU tp)) }, ensureTokensDir st)) ∧
    ((ensureTokensDir st).tokenFiles ≠ [] →
       latest none st envL = .ok
         ({ accounts := (globTokens (ensureTokensDir st)).map
             (fun tp => fetch_account_latest tp 7 (envL tp)) }, ensureTokensDir st)) ∧
    unread (some s) st envU =
      .error ("ValueError: invalid literal for int with base 10: " ++ s) ∧
    latest (some s) st envL =
      .error ("ValueError: invalid literal for int with base 10: " ++ s) := by
  have hperr : parse_max (some s) =
      .error ("ValueError: invalid literal for int with base 10: " ++ s) := by
    simp [parse_max, hs]
  refine ⟨rfl, ?_, ?_, ?_, ?_, ?_, ?_⟩
  · by_cases hemp : (ensureTokensDir st).tokenFiles = []
    · exact ⟨_, _, unread_ok_of_empty none st envU 7 rfl hemp⟩
    · exact ⟨_, _, unread_ok_of_ne none st envU 7 rfl hemp⟩
  · by_cases hemp : (ensureTokensDir st).tokenFiles = []
    · exact ⟨_, _, latest_ok_of_empty none st envL 7 rfl hemp⟩
    · exact ⟨_, _, latest_ok_of_ne none st envL 7 rfl hemp⟩
  · intro hne
    exact unread_ok_of_ne none st envU 7 rfl hne
  · intro hne
    exact latest_ok_of_ne none st envL 7 rfl hne
  · exact unread_of_parse_error (some s) st envU _ hperr
  · exact latest_of_parse_error (some s) st envL _ hperr

/-- Witness for C4 amended: concrete states and oracles with the parameter
omitted and with the non-numeric parameter "abc". -/
theorem max_param_amended_witness :
    parse_max none = Except.ok 7 ∧
    (∃ rU stU, unread none stA envsU1 = Except.ok (rU, stU)) ∧
    latest (some "abc") stA envsL1 =
      Except.error "ValueError: invalid literal for int with base 10: abc" := by
  have h := max_param_amended stA envsU1 envsL1 "abc" (by decide)
  exact ⟨h.1, h.2.1, h.2.2.2.2.2.2⟩

/-- C6 counterexample: with zero registered accounts the informational
message actually returned is "No authenticated accounts found. Please add
an account first.", not the shorter string the claim quotes. -/
theorem empty_store_message_counterexample :
    unread none st0 envsU1 =
      Except.ok (({ accounts := [], message := some NO_ACCOUNTS_MSG } :
        AggResponse String), st0) ∧
    NO_ACCOUNTS_MSG ≠ "No authenticated accounts found." :=
  ⟨rfl, by decide⟩

/-- C6 amended: when zero token files exist at fetch-start, both modes
return the informational response with accounts empty and the message
"No authenticated accounts found. Please add an account first.", and no
per-account fetch is performed: the result does not depend on the
per-account oracles at all. -/
theorem empty_store_response_amended {μ : Type} (maxArg : Option String)
    (st : ServerState) (envU envU2 : String → UnreadEnv μ)
    (envL envL2 : String → LatestEnv) (n : Int)
    (hn : parse_max maxArg = .ok n)
    (he : (ensureTokensDir st).tokenFiles = []) :
    unread maxArg st envU = .ok
      ({ accounts := [], message := some NO_ACCOUNTS_MSG }, ensureTokensDir st) ∧
    latest maxArg st envL = .ok
      ({ accounts := [], message := some NO_ACCOUNTS_MSG }, ensureTokensDir st) ∧
    unread maxArg st envU = unread maxArg st envU2 ∧
    latest maxArg st envL = latest maxArg st envL2 := by
  refine ⟨unread_ok_of_empty maxArg st envU n hn he,
          latest_ok_of_empty maxArg st envL n hn he, ?_, ?_⟩
  · rw [unread_ok_of_empty maxArg st envU n hn he,
        unread_ok_of_empty maxArg st envU2 n hn he]
  · rw [latest_ok_of_empty maxArg st envL n hn he,
        latest_ok_of_empty maxArg st envL2 n hn he]

/-- Witness for C6 amended: a missing tokens directory (hence zero stored
records) yields the informational response, independent of the oracles. -/
theorem empty_store_response_amended_witness :
    unread none stNoDir envsU1 = .ok
      (({ accounts := [], message := some NO_ACCOUNTS_MSG } : AggResponse String),
        ensureTokensDir stNoDir) ∧
    unread none stNoDir envsU1 = unread none stNoDir envsU2 := by
  have h := empty_store_response_amended none stNoDir envsU1 envsU2 envsL1 envsL2
    7 rfl (by decide)
  exact ⟨h.1, h.2.2.1⟩

/-- C7: delete_user returns 400 and leaves the store unchanged when the
email is missing, 404 and leaves the store unchanged when no such account
exists, and otherwise removes exactly the one record of that account:
the record is gone, every other record is untouched, and the store shrinks
by one. -/
theorem delete_user_spec (st : ServerState) (e : String)
    (hnd : st.tokenFiles.Nodup) :
    delete_user none st = (.badRequest, st) ∧
    (e ≠ "" → (e ++ ".json") ∉ st.tokenFiles →
       delete_user (some e) st = (.notFound, st)) ∧
    (e ≠ "" → (e ++ ".json") ∈ st.tokenFiles →
       ∃ st2, delete_user (some e) st = (.deleted e, st2) ∧
         st2.tokensDirExists = st.tokensDirExists ∧
         (e ++ ".json") ∉ st2.tokenFiles ∧
         (∀ f, f ≠ e ++ ".json" → (f ∈ st2.tokenFiles ↔ f ∈ st.tokenFiles)) ∧
         st2.tokenFiles.length + 1 = st.tokenFiles.length) := by
  refine ⟨rfl, ?_, ?_⟩
  · intro hne hnm
    simp [delete_user, hne, hnm]
  · intro hne hm
    refine ⟨{ st with tokenFiles := st.tokenFiles.erase (e ++ ".json") },
      ?_, rfl, ?_, ?_, ?_⟩
    · simp [delete_user, hne, hm]
    · exact hnd.not_mem_erase
    · intro f hf
      exact List.mem_erase_of_ne hf
    · rw [List.length_erase_of_mem hm]
      exact Nat.succ_pred_eq_of_pos (List.length_pos_of_mem hm)

/-- Witness for C7: on a two-account store, a missing email gives 400, an
unknown email gives 404 with the store intact, and deleting bob removes
exactly bob. -/
theorem delete_user_spec_witness :
    delete_user none stA = (.badRequest, stA) ∧
    delete_user (some "carol@x.y") stA = (.notFound, stA) ∧
    (∃ st2, delete_user (some "bob@gmail.com") stA = (.deleted "bob@gmail.com", st2) ∧
       st2.tokensDirExists = stA.tokensDirExists ∧
       ("bob@gmail.com" ++ ".json") ∉ st2.tokenFiles ∧
       (∀ f, f ≠ "bob@gmail.com" ++ ".json" →
          (f ∈ st2.tokenFiles ↔ f ∈ stA.tokenFiles)) ∧
       st2.tokenFiles.length + 1 = stA.tokenFiles.length) := by
  refine ⟨(delete_user_spec stA "bob@gmail.com" (by decide)).1, ?_, ?_⟩
  · exact (delete_user_spec stA "carol@x.y" (by decide)).2.1 (by decide) (by decide)
  · exact (delete_user_spec stA "bob@gmail.com" (by decide)).2.2 (by decide) (by decide)

/-- C8: in latest mode each projected field equals the value of the
correspondingly named header when such a header is present (its value being
unambiguous), and the empty string when no such header exists; the snippet
copies the upstream snippet and defaults to the empty string when absent. -/
theorem project_message_headers (d : MsgDetail) (v1 v2 v3 s : String) :
    ((∃ h ∈ headersOf d, h.name = "From") →
      (∀ h ∈ headersOf d, h.name = "From" → h.value = v1) →
      (projectMessage d).«from» = v1) ∧
    ((∀ h ∈ headersOf d, h.name ≠ "From") → (projectMessage d).«from» = "") ∧
    ((∃ h ∈ headersOf d, h.name = "Subject") →
      (∀ h ∈ headersOf d, h.name = "Subject" → h.value = v2) →
      (projectMessage d).subject = v2) ∧
    ((∀ h ∈ headersOf d, h.name ≠ "Subject") → (projectMessage d).subject = "") ∧
    ((∃ h ∈ headersOf d, h.name = "Date") →
      (∀ h ∈ headersOf d, h.name = "Date" → h.value = v3) →
      (projectMessage d).date = v3) ∧
    ((∀ h ∈ headersOf d, h.name ≠ "Date") → (projectMessage d).date = "") ∧
    (d.snippet = some s → (projectMessage d).snippet = s) ∧
    (d.snippet = none → (projectMessage d).snippet = "") := by
  refine ⟨?_, ?_, ?_, ?_, ?_, ?_, ?_, ?_⟩
  · intro hex huniq
    exact headerValue_of_present (headersOf d) "From" v1 hex huniq
  · intro hab
    exact headerValue_of_absent (headersOf d) "From" hab
  · intro hex huniq
    exact headerValue_of_present (headersOf d) "Subject" v2 hex huniq
  · intro hab
    exact headerValue_of_absent (headersOf d) "Subject" hab
  · intro hex huniq
    exact headerValue_of_present (headersOf d) "Date" v3 hex huniq
  · intro hab
    exact headerValue_of_absent (headersOf d) "Date" hab
  · intro hs
    simp [projectMessage, hs]
  · intro hs
    simp [projectMessage, hs]

/-- Witness for C8: a detail with all headers present projects their exact
values, and a detail with no payload and no snippet projects four empty
strings. -/
theorem project_message_headers_witness :
    (projectMessage msgW).«from» = "bob@x.y" ∧
    (projectMessage msgW).subject = "hi" ∧
    (projectMessage msgW).date = "Mon, 1 Jan 2024" ∧
    (projectMessage msgW).snippet = "hello there" ∧
    (projectMessage msgEmpty).«from» = "" ∧
    (projectMessage msgEmpty).subject = "" ∧
    (projectMessage msgEmpty).snippet = "" := by
  have hw := project_message_headers msgW "bob@x.y" "hi" "Mon, 1 Jan 2024" "hello there"
  have he := project_message_headers msgEmpty "" "" "" ""
  refine ⟨hw.1 (by decide) (by decide), hw.2.2.1 (by decide) (by decide),
    hw.2.2.2.2.1 (by decide) (by decide), hw.2.2.2.2.2.2.1 rfl,
    he.2.1 (by decide), he.2.2.2.1 (by decide), he.2.2.2.2.2.2.2 rfl⟩

/-- C9: with the credential store and the oracle responses unchanged between
two consecutive calls, the second aggregate call returns exactly the
response of the first, in either mode - the operation is deterministic in
its inputs and leaves the token file set unchanged. -/
theorem aggregate_idempotent {μ : Type} (maxArg : Option String)
    (st : ServerState) (envU : String → UnreadEnv μ)
    (envL : String → LatestEnv) :
    (∀ r st2, unread maxArg st envU = .ok (r, st2) →
       unread maxArg st2 envU = .ok (r, st2)) ∧
    (∀ r st2, latest maxArg st envL = .ok (r, st2) →
       latest maxArg st2 envL = .ok (r, st2)) := by
  constructor
  · intro r st2 h
    have hst := unread_state maxArg st envU r st2 h
    subst hst
    rw [unread_ensure]
    exact h
  · intro r st2 h
    have hst := latest_state maxArg st envL r st2 h
    subst hst
    rw [latest_ensure]
    exact h

/-- Witness for C9: the concrete two-account /unread call returns `rUW` and
leaves the store as it was; the repeated call returns the same pair. -/
theorem aggregate_idempotent_witness :
    unread none stA envsU1 = .ok (rUW, stA) :=
  (aggregate_idempotent none stA envsU1 envsL1).1 rUW stA rfl

end GmailAggregator
